import Mathlib

/-!
Shallow embedding of the `fprime-playtest` repository's MathReceiver component
(`src/unnamed/part_001`, `MathReceiver.cpp`) and of the framework services it is
built on (message queue dispatch, command dispatch, parameter store, throttled
events, output ports).  Pure functions model the C++ handlers; component state is
passed explicitly; every framework side effect (event report, telemetry write,
port invocation, command response) is recorded in an explicit emission trace.
F32 values are idealized as exact rationals extended with the non-finite IEEE
values (infinity, negative infinity, NaN); rounding is not modelled, which is
irrelevant to the structural data-flow properties proved here.
-/

namespace MathModule

/-- Idealized 32-bit float: an exact rational, or one of the IEEE non-finite
values (positive infinity, negative infinity, NaN).  Signed zero and rounding
are not modelled. -/
inductive F32 where
  | finite : ℚ → F32
  | inf : F32
  | neginf : F32
  | nan : F32
deriving DecidableEq, Repr

/-- Whether an `F32` value is finite (neither an infinity nor NaN). -/
def F32.isFinite : F32 → Bool
  | .finite _ => true
  | _ => false

/-- Addition on idealized `F32` (`val1 + val2` in the ADD branch of the C++
switch).  Finite arguments add exactly; infinities follow the IEEE sign rules
and `inf + neginf` is NaN. -/
def f32Add : F32 → F32 → F32
  | .finite a, .finite b => .finite (a + b)
  | .finite _, .inf => .inf
  | .inf, .finite _ => .inf
  | .inf, .inf => .inf
  | .finite _, .neginf => .neginf
  | .neginf, .finite _ => .neginf
  | .neginf, .neginf => .neginf
  | _, _ => .nan

/-- Subtraction on idealized `F32` (`val1 - val2` in the SUB branch). -/
def f32Sub : F32 → F32 → F32
  | .finite a, .finite b => .finite (a - b)
  | .finite _, .neginf => .inf
  | .inf, .finite _ => .inf
  | .inf, .neginf => .inf
  | .finite _, .inf => .neginf
  | .neginf, .finite _ => .neginf
  | .neginf, .inf => .neginf
  | _, _ => .nan

/-- Multiplication on idealized `F32` (`val1 * val2` in the MUL branch, and the
`res *= factor` step).  Infinity times zero is NaN; otherwise infinities follow
the sign rules. -/
def f32Mul : F32 → F32 → F32
  | .finite a, .finite b => .finite (a * b)
  | .finite a, .inf => if 0 < a then .inf else if a < 0 then .neginf else .nan
  | .inf, .finite b => if 0 < b then .inf else if b < 0 then .neginf else .nan
  | .finite a, .neginf => if 0 < a then .neginf else if a < 0 then .inf else .nan
  | .neginf, .finite b => if 0 < b then .neginf else if b < 0 then .inf else .nan
  | .inf, .inf => .inf
  | .inf, .neginf => .neginf
  | .neginf, .inf => .neginf
  | .neginf, .neginf => .inf
  | _, _ => .nan

/-- Division on idealized `F32` (`val1 / val2` in the DIV branch).  Division of
a nonzero finite value by zero yields a signed infinity, `0 / 0` yields NaN,
exactly as IEEE-754 prescribes (modulo the unmodelled signed zero). -/
def f32Div : F32 → F32 → F32
  | .finite a, .finite b =>
      if b ≠ 0 then .finite (a / b)
      else if 0 < a then .inf
      else if a < 0 then .neginf
      else .nan
  | .finite _, .inf => .finite 0
  | .finite _, .neginf => .finite 0
  | .inf, .finite b => if 0 ≤ b then .inf else .neginf
  | .neginf, .finite b => if 0 ≤ b then .neginf else .inf
  | _, _ => .nan

/-- Modelled from the spec: the `MathOp` enum of `Types/MathTypes.fpp` is not in
`src/`; per the spec it is the closed selector enumeration {ADD, SUB, MUL, DIV}.
The autocoded C++ enum class carries a raw integer member `e`, which the handler
switches on; an out-of-range raw value is representable, as in C++. -/
structure MathOp where
  e : Nat
deriving DecidableEq, Repr

/-- Raw encoding of the ADD selector. -/
def MathOp.ADD : Nat := 0

/-- Raw encoding of the SUB selector. -/
def MathOp.SUB : Nat := 1

/-- Raw encoding of the MUL selector. -/
def MathOp.MUL : Nat := 2

/-- Raw encoding of the DIV selector. -/
def MathOp.DIV : Nat := 3

/-- Modelled from the spec: `Fw::ParamValid` comes from the framework, not
`src/`; the spec's data model fixes the validity tag as the tri-state
{UNINITIALIZED, DEFAULT, VALID}. -/
inductive ParamValid where
  | UNINIT : ParamValid
  | DEFAULT : ParamValid
  | VALID : ParamValid
deriving DecidableEq, Repr

/-- Modelled from the spec: command completion status, from the command protocol
`status ∈ {OK, INVALID_OPCODE, EXECUTION_ERROR}` (the framework's
`Fw::CmdResponse` is not in `src/`). -/
inductive CmdResponse where
  | OK : CmdResponse
  | INVALID_OPCODE : CmdResponse
  | EXECUTION_ERROR : CmdResponse
deriving DecidableEq, Repr

/-- One observable side effect of a handler: an event report, a telemetry
write, an output-port invocation (and, when the port is wired, the delivery to
the connected peer), or a command response. -/
inductive Emit where
  | eventOperationPerformed : MathOp → Emit
  | tlmOperation : MathOp → Emit
  | resultInvoke : Nat → F32 → Emit
  | resultDelivered : Nat → F32 → Emit
  | eventFactorUpdated : F32 → Emit
  | eventThrottleCleared : Emit
  | cmdResponse : Nat → Nat → CmdResponse → Emit
deriving DecidableEq, Repr

/-- Projection: the value carried by a result-port invocation, if any. -/
def Emit.resultValueOf : Emit → Option F32
  | .resultInvoke _ r => some r
  | _ => none

/-- Whether an emission is a delivery of a result to a connected peer. -/
def Emit.isResultDelivered : Emit → Bool
  | .resultDelivered _ _ => true
  | _ => false

/-- Whether an emission is an OPERATION_PERFORMED event report. -/
def Emit.isOperationPerformed : Emit → Bool
  | .eventOperationPerformed _ => true
  | _ => false

/-- Whether an emission is an OPERATION telemetry write. -/
def Emit.isTlmOperation : Emit → Bool
  | .tlmOperation _ => true
  | _ => false

/-- Whether an emission is a FACTOR_UPDATED event report. -/
def Emit.isFactorUpdated : Emit → Bool
  | .eventFactorUpdated _ => true
  | _ => false

/-- Projection: the `(opcode, sequence, status)` of a command response, if the
emission is one. -/
def Emit.responseOf : Emit → Option (Nat × Nat × CmdResponse)
  | .cmdResponse o q r => some (o, q, r)
  | _ => none

/-- Argument of a failed `FW_ASSERT`: the raw operation selector, the parameter
validity value, or the parameter identifier the code asserted on.  An
`FW_ASSERT` failure halts the process, so a handler that asserts produces no
emissions and no successor state. -/
inductive AssertArg where
  | badOp : Nat → AssertArg
  | badValid : ParamValid → AssertArg
  | badParamId : Nat → AssertArg
deriving DecidableEq, Repr

/-- State of the MathReceiver component visible to its handlers: the FACTOR
parameter's stored value and validity, the saturating throttle counter of the
FACTOR_UPDATED event, and whether the `mathResultOut` output port has a
connected peer. -/
structure MathReceiverState where
  factorValue : F32
  factorValid : ParamValid
  factorUpdatedThrottle : Nat
  resultPortConnected : Bool
deriving DecidableEq, Repr

/-- Identifier of the FACTOR parameter (`PARAMID_FACTOR` of the autocoded base
class; the numeric encoding is representative). -/
def PARAMID_FACTOR : Nat := 0

/-- The component's read of the FACTOR parameter: `paramGet_FACTOR(valid)`
returns the stored value and validity. -/
def paramGet_FACTOR (s : MathReceiverState) : F32 × ParamValid :=
  (s.factorValue, s.factorValid)

/-- Modelled from the spec: the autocoded typed output port call
`mathResultOut_out` is not in `src/`; per the spec an output port's invoke
resolves to the single connected peer, and invoking an unconnected output port
is a silent no-op that must not crash.  The trace records the invocation itself
and, only when a peer is wired, the delivery. -/
def mathResultOut_out (portNum : Nat) (result : F32) (s : MathReceiverState) :
    MathReceiverState × List Emit :=
  if s.resultPortConnected then
    (s, [Emit.resultInvoke portNum result, Emit.resultDelivered portNum result])
  else
    (s, [Emit.resultInvoke portNum result])

/-- Modelled from the spec: the autocoded event call
`log_ACTIVITY_HI_OPERATION_PERFORMED` is not in `src/`; it reports one
informational event to the sink. -/
def log_ACTIVITY_HI_OPERATION_PERFORMED (op : MathOp) : List Emit :=
  [Emit.eventOperationPerformed op]

/-- Modelled from the spec: the autocoded telemetry call `tlmWrite_OPERATION`
is not in `src/`; it writes one sample of the OPERATION channel. -/
def tlmWrite_OPERATION (op : MathOp) : List Emit :=
  [Emit.tlmOperation op]

/-- The switch on `op.e` at the head of `mathOpIn_handler`: the initial result
for a recognised selector, `none` for the `default:` branch, whose
`FW_ASSERT(0, op.e)` fires. -/
def mathOpEval (op : MathOp) (val1 val2 : F32) : Option F32 :=
  if op.e = MathOp.ADD then some (f32Add val1 val2)
  else if op.e = MathOp.SUB then some (f32Sub val1 val2)
  else if op.e = MathOp.DIV then some (f32Div val1 val2)
  else if op.e = MathOp.MUL then some (f32Mul val1 val2)
  else none

/-- `MathReceiver::mathOpIn_handler`: compute the initial result by the switch
on the selector (asserting on an out-of-range value), read the FACTOR
parameter and assert its validity is VALID or DEFAULT, multiply the result by
the factor, emit the OPERATION_PERFORMED event and OPERATION telemetry, then
invoke the result output port. -/
def mathOpIn_handler (portNum : Nat) (val1 : F32) (op : MathOp) (val2 : F32)
    (s : MathReceiverState) : Except AssertArg (MathReceiverState × List Emit) :=
  match mathOpEval op val1 val2 with
  | none => .error (.badOp op.e)
  | some res =>
    let fv := paramGet_FACTOR s
    if fv.2 = ParamValid.VALID ∨ fv.2 = ParamValid.DEFAULT then
      let res1 := f32Mul res fv.1
      let out := mathResultOut_out 0 res1 s
      .ok (out.1,
        log_ACTIVITY_HI_OPERATION_PERFORMED op ++ tlmWrite_OPERATION op ++ out.2)
    else .error (.badValid fv.2)

/-- Modelled from the spec: the autocoded throttled event call
`log_ACTIVITY_HI_FACTOR_UPDATED` (from `MathReceiver.fpp`'s throttle clause,
not in `src/`).  The per-event saturating counter suppresses emission once it
has reached the configured threshold, until explicitly cleared; below the
threshold the counter increments and the event is reported. -/
def log_ACTIVITY_HI_FACTOR_UPDATED (threshold : Nat) (val : F32)
    (s : MathReceiverState) : MathReceiverState × List Emit :=
  if s.factorUpdatedThrottle < threshold then
    ({ s with factorUpdatedThrottle := s.factorUpdatedThrottle + 1 },
      [Emit.eventFactorUpdated val])
  else (s, [])

/-- Modelled from the spec: the autocoded
`log_ACTIVITY_HI_FACTOR_UPDATED_ThrottleClear` resets the FACTOR_UPDATED
throttle counter to 0. -/
def log_ACTIVITY_HI_FACTOR_UPDATED_ThrottleClear (s : MathReceiverState) :
    MathReceiverState :=
  { s with factorUpdatedThrottle := 0 }

/-- Modelled from the spec: the autocoded (unthrottled) event call
`log_ACTIVITY_HI_THROTTLE_CLEARED` reports the one-time cleared
notification. -/
def log_ACTIVITY_HI_THROTTLE_CLEARED : List Emit :=
  [Emit.eventThrottleCleared]

/-- Modelled from the spec: the autocoded `cmdResponse_out` emits one command
completion response carrying the opcode, the sequence number and a status. -/
def cmdResponse_out (opCode cmdSeq : Nat) (response : CmdResponse) : List Emit :=
  [Emit.cmdResponse opCode cmdSeq response]

/-- `MathReceiver::parameterUpdated`: on `PARAMID_FACTOR`, re-read the
parameter, assert validity is VALID or DEFAULT, and report the (throttled)
FACTOR_UPDATED event with the value read; on any other identifier,
`FW_ASSERT(0, id)` fires. -/
def parameterUpdated (threshold : Nat) (id : Nat) (s : MathReceiverState) :
    Except AssertArg (MathReceiverState × List Emit) :=
  if id = PARAMID_FACTOR then
    let pv := paramGet_FACTOR s
    if pv.2 = ParamValid.VALID ∨ pv.2 = ParamValid.DEFAULT then
      .ok (log_ACTIVITY_HI_FACTOR_UPDATED threshold pv.1 s)
    else .error (.badValid pv.2)
  else .error (.badParamId id)

/-- `MathReceiver::CLEAR_EVENT_THROTTLE_cmdHandler`: clear the FACTOR_UPDATED
throttle, report the THROTTLE_CLEARED event, then respond OK echoing the
opcode and sequence number. -/
def CLEAR_EVENT_THROTTLE_cmdHandler (opCode cmdSeq : Nat)
    (s : MathReceiverState) : MathReceiverState × List Emit :=
  let s1 := log_ACTIVITY_HI_FACTOR_UPDATED_ThrottleClear s
  (s1, log_ACTIVITY_HI_THROTTLE_CLEARED ++ cmdResponse_out opCode cmdSeq CmdResponse.OK)

/-- Modelled from the spec: the generic parameter store (`Fw::PrmDb` and the
autocoded parameter base, not in `src/`): named typed values with a validity
tag, `get(id)` returning the stored pair. -/
def prmGet (db : Nat → F32 × ParamValid) (id : Nat) : F32 × ParamValid :=
  db id

/-- Modelled from the spec: the parameter store's `set(id, value)` records the
value for that identifier with validity VALID and leaves every other parameter
untouched. -/
def prmSet (db : Nat → F32 × ParamValid) (id : Nat) (v : F32) :
    Nat → F32 × ParamValid :=
  fun j => if j = id then (v, ParamValid.VALID) else db j

/-- Modelled from the spec: the command-driven update path of the FACTOR
parameter (autocoded `FACTOR_PRM_SET` machinery, not in `src/`): the new value
is stored with validity VALID, and the `parameterUpdated` notification callback
runs synchronously before the set call returns; the callback's emissions are
the emissions of the update. -/
def paramSet_FACTOR (threshold : Nat) (v : F32) (s : MathReceiverState) :
    Except AssertArg (MathReceiverState × List Emit) :=
  let s1 := { s with factorValue := v, factorValid := ParamValid.VALID }
  parameterUpdated threshold PARAMID_FACTOR s1

/-- Opcode of the CLEAR_EVENT_THROTTLE command (representative encoding of the
autocoded `OPCODE_CLEAR_EVENT_THROTTLE`). -/
def OPCODE_CLEAR_EVENT_THROTTLE : Nat := 0

/-- Opcode of the autocoded FACTOR_PRM_SET command (representative encoding). -/
def OPCODE_FACTOR_PRM_SET : Nat := 1

/-- Modelled from the spec: the command dispatcher (autocoded base-class
dispatch, not in `src/`): a registered opcode runs its handler to completion
before the response is emitted; an unknown opcode yields exactly one response
with status INVALID_OPCODE, still echoing the opcode and sequence number. -/
def dispatchCommand (threshold : Nat) (opCode cmdSeq : Nat) (arg : F32)
    (s : MathReceiverState) : Except AssertArg (MathReceiverState × List Emit) :=
  if opCode = OPCODE_CLEAR_EVENT_THROTTLE then
    .ok (CLEAR_EVENT_THROTTLE_cmdHandler opCode cmdSeq s)
  else if opCode = OPCODE_FACTOR_PRM_SET then
    match paramSet_FACTOR threshold arg s with
    | .error a => .error a
    | .ok r => .ok (r.1, r.2 ++ cmdResponse_out opCode cmdSeq CmdResponse.OK)
  else
    .ok (s, cmdResponse_out opCode cmdSeq CmdResponse.INVALID_OPCODE)

/-- Consecutive calls of the throttled FACTOR_UPDATED report: `k` emission
attempts in a row, threading the component state (only the throttle counter
changes). -/
def factorUpdatedAttempts (threshold : Nat) (val : F32) :
    Nat → MathReceiverState → MathReceiverState
  | 0, s => s
  | k + 1, s =>
      factorUpdatedAttempts threshold val k
        (log_ACTIVITY_HI_FACTOR_UPDATED threshold val s).1

/-- State of a queued component's message queue: the pending messages in FIFO
order, plus the trace of messages dispatched so far.  Messages are opaque
identifiers. -/
structure QueueState where
  queue : List Nat
  dispatched : List Nat
deriving DecidableEq, Repr

/-- `Fw::QueuedComponentBase::m_queue.getMessagesAvailable()`: the current
queue depth. -/
def getMessagesAvailable (s : QueueState) : Nat :=
  s.queue.length

/-- Modelled from the spec: the autocoded `doDispatch` (not in `src/`) dequeues
the single oldest message and runs its handler synchronously to completion; the
handler may itself enqueue further messages (`handle m` lists them), which land
at the back of the queue.  An empty queue leaves the state unchanged. -/
def doDispatch (handle : Nat → List Nat) (s : QueueState) : QueueState :=
  match s.queue with
  | [] => s
  | m :: rest =>
      { queue := rest ++ handle m, dispatched := s.dispatched ++ [m] }

/-- The loop body of `schedIn_handler`: `n` iterations of `doDispatch`. -/
def drain (handle : Nat → List Nat) : Nat → QueueState → QueueState
  | 0, s => s
  | n + 1, s => drain handle n (doDispatch handle s)

/-- `MathReceiver::schedIn_handler`: read the number of messages available,
then call `doDispatch` exactly that many times.  The port number and the call
context are ignored by the body. -/
def schedIn_handler (handle : Nat → List Nat) (portNum : Nat) (context : Nat)
    (s : QueueState) : QueueState :=
  drain handle (getMessagesAvailable s) s

/-- Helper: on a recognised selector and a VALID or DEFAULT factor,
`mathOpIn_handler` succeeds, leaves the state unchanged, and its trace is the
OPERATION_PERFORMED event, the OPERATION telemetry write, and the single
result-port invocation carrying the factored result (with a delivery exactly
when the port is wired). -/
lemma mathOpIn_handler_ok (pn : Nat) (v1 v2 : F32) (op : MathOp)
    (s : MathReceiverState) (r : F32) (hr : mathOpEval op v1 v2 = some r)
    (hv : s.factorValid = ParamValid.VALID ∨ s.factorValid = ParamValid.DEFAULT) :
    mathOpIn_handler pn v1 op v2 s =
      .ok (s, [Emit.eventOperationPerformed op, Emit.tlmOperation op] ++
        (if s.resultPortConnected then
          [Emit.resultInvoke 0 (f32Mul r s.factorValue),
           Emit.resultDelivered 0 (f32Mul r s.factorValue)]
         else [Emit.resultInvoke 0 (f32Mul r s.factorValue)])) := by
  rcases hv with h | h <;>
    simp [mathOpIn_handler, hr, paramGet_FACTOR, h, mathResultOut_out,
      log_ACTIVITY_HI_OPERATION_PERFORMED, tlmWrite_OPERATION] <;>
    split <;> simp

/-- Helper: the head switch of `mathOpIn_handler` falls into the asserting
`default:` branch exactly when the raw selector is outside
{ADD, SUB, DIV, MUL}. -/
lemma mathOpEval_none (op : MathOp) (v1 v2 : F32) :
    mathOpEval op v1 v2 = none ↔
      ¬ (op.e = MathOp.ADD ∨ op.e = MathOp.SUB ∨ op.e = MathOp.DIV ∨
        op.e = MathOp.MUL) := by
  unfold mathOpEval
  split_ifs <;> simp [*]

/-- C1: for every valid operation selector and every pair of finite operands,
with the FACTOR parameter VALID or DEFAULT, `mathOpIn_handler` invokes the
result output port exactly once, with value `(operator(val1, val2)) * factor`
where `factor` is the current FACTOR parameter value, and emits exactly one
OPERATION_PERFORMED event and one OPERATION telemetry write. -/
theorem mathOpIn_result_correct (pn : Nat) (v1 v2 : F32) (op : MathOp)
    (s : MathReceiverState)
    (hop : op.e = MathOp.ADD ∨ op.e = MathOp.SUB ∨ op.e = MathOp.DIV ∨
      op.e = MathOp.MUL)
    (hf1 : v1.isFinite = true) (hf2 : v2.isFinite = true)
    (hv : s.factorValid = ParamValid.VALID ∨ s.factorValid = ParamValid.DEFAULT) :
    ∃ r emits, mathOpEval op v1 v2 = some r ∧
      mathOpIn_handler pn v1 op v2 s = .ok (s, emits) ∧
      emits.filterMap Emit.resultValueOf = [f32Mul r s.factorValue] ∧
      emits.countP Emit.isOperationPerformed = 1 ∧
      emits.countP Emit.isTlmOperation = 1 := by
  have hr : ∃ r, mathOpEval op v1 v2 = some r := by
    cases he : mathOpEval op v1 v2 with
    | some r => exact ⟨r, rfl⟩
    | none => exact absurd ((mathOpEval_none op v1 v2).mp he) (by tauto)
  obtain ⟨r, hr⟩ := hr
  refine ⟨r, _, hr, mathOpIn_handler_ok pn v1 v2 op s r hr hv, ?_⟩
  cases hc : s.resultPortConnected <;>
    simp [hc, Emit.resultValueOf, Emit.isOperationPerformed, Emit.isTlmOperation,
      List.countP_cons, List.countP_nil]

/-- Witness for C1 at concrete inputs: ADD on 2 and 3 with a DEFAULT factor. -/
theorem mathOpIn_result_correct_witness :
    ∃ r emits,
      mathOpEval ⟨MathOp.ADD⟩ (F32.finite 2) (F32.finite 3) = some r ∧
      mathOpIn_handler 0 (F32.finite 2) ⟨MathOp.ADD⟩ (F32.finite 3)
          ⟨F32.finite 1, ParamValid.DEFAULT, 0, true⟩ =
        .ok (⟨F32.finite 1, ParamValid.DEFAULT, 0, true⟩, emits) ∧
      emits.filterMap Emit.resultValueOf = [f32Mul r (F32.finite 1)] ∧
      emits.countP Emit.isOperationPerformed = 1 ∧
      emits.countP Emit.isTlmOperation = 1 :=
  mathOpIn_result_correct 0 (F32.finite 2) (F32.finite 3) ⟨MathOp.ADD⟩
    ⟨F32.finite 1, ParamValid.DEFAULT, 0, true⟩
    (by simp [MathOp.ADD]) rfl rfl (Or.inr rfl)

/-- C4: `mathOpIn_handler` halts by assertion (emitting nothing and producing
no successor state) exactly when the selector is outside {ADD, SUB, DIV, MUL}
or the FACTOR parameter's validity is UNINITIALIZED at read time, and
`parameterUpdated` halts on every identifier other than PARAMID_FACTOR. -/
theorem mathOpIn_assert_exact (pn : Nat) (v1 v2 : F32) (op : MathOp)
    (T id : Nat) (s : MathReceiverState) :
    ((∃ a, mathOpIn_handler pn v1 op v2 s = .error a) ↔
      (¬ (op.e = MathOp.ADD ∨ op.e = MathOp.SUB ∨ op.e = MathOp.DIV ∨
          op.e = MathOp.MUL) ∨
        s.factorValid = ParamValid.UNINIT)) ∧
    (id ≠ PARAMID_FACTOR → ∃ a, parameterUpdated T id s = .error a) := by
  constructor
  · cases he : mathOpEval op v1 v2 with
    | none =>
        simp only [mathOpIn_handler, he]
        simpa using Or.inl ((mathOpEval_none op v1 v2).mp he)
    | some r =>
        have hop : op.e = MathOp.ADD ∨ op.e = MathOp.SUB ∨ op.e = MathOp.DIV ∨
            op.e = MathOp.MUL := by
          by_contra hc
          rw [(mathOpEval_none op v1 v2).mpr hc] at he
          exact Option.noConfusion he
        simp only [mathOpIn_handler, he, paramGet_FACTOR]
        cases hval : s.factorValid <;> simp [hval, hop]
  · intro h
    exact ⟨AssertArg.badParamId id, by simp [parameterUpdated, h]⟩

/-- Witness for C4 at concrete inputs: an out-of-range selector (raw value 7)
with an UNINITIALIZED factor, and the foreign parameter identifier 5. -/
theorem mathOpIn_assert_exact_witness :
    ((∃ a, mathOpIn_handler 0 (F32.finite 1) ⟨7⟩ (F32.finite 1)
        ⟨F32.finite 1, ParamValid.UNINIT, 0, true⟩ = .error a) ↔
      (¬ ((7 : Nat) = MathOp.ADD ∨ (7 : Nat) = MathOp.SUB ∨
          (7 : Nat) = MathOp.DIV ∨ (7 : Nat) = MathOp.MUL) ∨
        ParamValid.UNINIT = ParamValid.UNINIT)) ∧
    ((5 : Nat) ≠ PARAMID_FACTOR →
      ∃ a, parameterUpdated 3 5 ⟨F32.finite 1, ParamValid.UNINIT, 0, true⟩ =
        .error a) :=
  mathOpIn_assert_exact 0 (F32.finite 1) (F32.finite 1) ⟨7⟩ 3 5
    ⟨F32.finite 1, ParamValid.UNINIT, 0, true⟩

/-- C8: when DIV produces a non-finite value, `mathOpIn_handler` applies no
guard: it still succeeds, multiplies the non-finite value by the factor, and
emits it through the result output port together with the usual event and
telemetry. -/
theorem div_nonfinite_propagates (pn : Nat) (v1 v2 : F32) (s : MathReceiverState)
    (hnf : (f32Div v1 v2).isFinite = false)
    (hv : s.factorValid = ParamValid.VALID ∨ s.factorValid = ParamValid.DEFAULT) :
    ∃ emits, mathOpIn_handler pn v1 ⟨MathOp.DIV⟩ v2 s = .ok (s, emits) ∧
      emits.filterMap Emit.resultValueOf = [f32Mul (f32Div v1 v2) s.factorValue] ∧
      emits.countP Emit.isOperationPerformed = 1 ∧
      emits.countP Emit.isTlmOperation = 1 := by
  have hr : mathOpEval ⟨MathOp.DIV⟩ v1 v2 = some (f32Div v1 v2) := by
    simp [mathOpEval, MathOp.ADD, MathOp.SUB, MathOp.DIV, MathOp.MUL]
  refine ⟨_, mathOpIn_handler_ok pn v1 v2 ⟨MathOp.DIV⟩ s (f32Div v1 v2) hr hv, ?_⟩
  cases hc : s.resultPortConnected <;>
    simp [hc, Emit.resultValueOf, Emit.isOperationPerformed, Emit.isTlmOperation,
      List.countP_cons, List.countP_nil]

/-- Witness for C8 at concrete inputs: 1 / 0 is positive infinity; multiplied
by the VALID factor 2 it is emitted as positive infinity. -/
theorem div_nonfinite_propagates_witness :
    ∃ emits,
      mathOpIn_handler 0 (F32.finite 1) ⟨MathOp.DIV⟩ (F32.finite 0)
          ⟨F32.finite 2, ParamValid.VALID, 0, true⟩ =
        .ok (⟨F32.finite 2, ParamValid.VALID, 0, true⟩, emits) ∧
      emits.filterMap Emit.resultValueOf =
        [f32Mul (f32Div (F32.finite 1) (F32.finite 0)) (F32.finite 2)] ∧
      emits.countP Emit.isOperationPerformed = 1 ∧
      emits.countP Emit.isTlmOperation = 1 :=
  div_nonfinite_propagates 0 (F32.finite 1) (F32.finite 0)
    ⟨F32.finite 2, ParamValid.VALID, 0, true⟩
    (by norm_num [f32Div, F32.isFinite]) (Or.inl rfl)

/-- C9: invoking the result output port with no connected peer returns
normally, leaves the state unchanged and delivers nothing; in particular
`mathOpIn_handler` still succeeds with its event and telemetry, and its trace
contains no delivery. -/
theorem unconnected_resultOut_noop (pn pn2 : Nat) (v v1 v2 : F32) (op : MathOp)
    (s : MathReceiverState)
    (hconn : s.resultPortConnected = false)
    (hop : op.e = MathOp.ADD ∨ op.e = MathOp.SUB ∨ op.e = MathOp.DIV ∨
      op.e = MathOp.MUL)
    (hv : s.factorValid = ParamValid.VALID ∨ s.factorValid = ParamValid.DEFAULT) :
    mathResultOut_out pn v s = (s, [Emit.resultInvoke pn v]) ∧
    ∃ emits, mathOpIn_handler pn2 v1 op v2 s = .ok (s, emits) ∧
      emits.countP Emit.isResultDelivered = 0 := by
  refine ⟨by simp [mathResultOut_out, hconn], ?_⟩
  have hr : ∃ r, mathOpEval op v1 v2 = some r := by
    cases he : mathOpEval op v1 v2 with
    | some r => exact ⟨r, rfl⟩
    | none => exact absurd ((mathOpEval_none op v1 v2).mp he) (by tauto)
  obtain ⟨r, hr⟩ := hr
  refine ⟨_, mathOpIn_handler_ok pn2 v1 v2 op s r hr hv, ?_⟩
  simp [hconn, Emit.isResultDelivered, List.countP_cons, List.countP_nil]

/-- Witness for C9 at concrete inputs: MUL on 2 and 3 with the result port
unwired. -/
theorem unconnected_resultOut_noop_witness :
    mathResultOut_out 1 (F32.finite 4)
        ⟨F32.finite 1, ParamValid.VALID, 0, false⟩ =
      (⟨F32.finite 1, ParamValid.VALID, 0, false⟩,
        [Emit.resultInvoke 1 (F32.finite 4)]) ∧
    ∃ emits,
      mathOpIn_handler 0 (F32.finite 2) ⟨MathOp.MUL⟩ (F32.finite 3)
          ⟨F32.finite 1, ParamValid.VALID, 0, false⟩ =
        .ok (⟨F32.finite 1, ParamValid.VALID, 0, false⟩, emits) ∧
      emits.countP Emit.isResultDelivered = 0 :=
  unconnected_resultOut_noop 1 0 (F32.finite 4) (F32.finite 2) (F32.finite 3)
    ⟨MathOp.MUL⟩ ⟨F32.finite 1, ParamValid.VALID, 0, false⟩
    rfl (by simp [MathOp.ADD, MathOp.SUB, MathOp.DIV, MathOp.MUL]) (Or.inl rfl)

/-- Helper: running `drain` for exactly the length of a front segment of the
queue dispatches exactly that segment, in order; the messages the dispatched
handlers enqueue (and everything behind the segment) stay in the queue. -/
lemma drain_front (handle : Nat → List Nat) :
    ∀ (q rest d : List Nat),
      drain handle q.length { queue := q ++ rest, dispatched := d } =
        { queue := rest ++ (q.map handle).flatten, dispatched := d ++ q } := by
  intro q
  induction q with
  | nil => intro rest d; simp [drain]
  | cons m q ih =>
      intro rest d
      have step :
          doDispatch handle { queue := (m :: q) ++ rest, dispatched := d } =
            { queue := q ++ (rest ++ handle m), dispatched := d ++ [m] } := by
        simp [doDispatch]
      have h1 :
          drain handle (m :: q).length { queue := (m :: q) ++ rest, dispatched := d } =
            drain handle q.length
              (doDispatch handle { queue := (m :: q) ++ rest, dispatched := d }) := rfl
      rw [h1, step, ih]
      simp

/-- C2: one invocation of `schedIn_handler` dispatches exactly the messages
present in the queue when the pass starts (appended in FIFO order to the
dispatch trace); messages enqueued by handlers while the pass runs are exactly
what remains queued for a later tick. -/
theorem schedIn_bounded_drain (handle : Nat → List Nat) (pn ctx : Nat)
    (s : QueueState) :
    schedIn_handler handle pn ctx s =
      { queue := (s.queue.map handle).flatten,
        dispatched := s.dispatched ++ s.queue } := by
  cases s with
  | mk q d =>
      have h := drain_front handle q [] d
      simpa [schedIn_handler, getMessagesAvailable] using h

/-- C10: `schedIn_handler` is independent of its port number and context
arguments — two runs from the same queue state with arbitrary differing
`portNum` and `context` dispatch the same messages and end in the same
state. -/
theorem schedIn_noninterference (handle : Nat → List Nat)
    (pn1 ctx1 pn2 ctx2 : Nat) (s : QueueState) :
    schedIn_handler handle pn1 ctx1 s = schedIn_handler handle pn2 ctx2 s :=
  rfl

/-- C3: every dispatched command produces exactly one command response,
echoing the submitted opcode and sequence number unchanged; a registered
opcode responds OK after its handler completes, an unknown opcode responds
INVALID_OPCODE rather than nothing. -/
theorem dispatchCommand_single_response (T op sq : Nat) (arg : F32)
    (s : MathReceiverState) :
    ∃ s1 emits, dispatchCommand T op sq arg s = .ok (s1, emits) ∧
      emits.filterMap Emit.responseOf =
        [(op, sq,
          if op = OPCODE_CLEAR_EVENT_THROTTLE ∨ op = OPCODE_FACTOR_PRM_SET
          then CmdResponse.OK else CmdResponse.INVALID_OPCODE)] := by
  by_cases h1 : op = OPCODE_CLEAR_EVENT_THROTTLE
  · refine ⟨log_ACTIVITY_HI_FACTOR_UPDATED_ThrottleClear s,
      log_ACTIVITY_HI_THROTTLE_CLEARED ++ cmdResponse_out op sq CmdResponse.OK,
      ?_, ?_⟩
    · simp [dispatchCommand, h1, CLEAR_EVENT_THROTTLE_cmdHandler]
    · simp [h1, log_ACTIVITY_HI_THROTTLE_CLEARED, cmdResponse_out, Emit.responseOf]
  · by_cases h2 : op = OPCODE_FACTOR_PRM_SET
    · by_cases h3 : s.factorUpdatedThrottle < T
      · refine ⟨{ s with
            factorValue := arg,
            factorValid := ParamValid.VALID,
            factorUpdatedThrottle := s.factorUpdatedThrottle + 1 },
          [Emit.eventFactorUpdated arg] ++ cmdResponse_out op sq CmdResponse.OK,
          ?_, ?_⟩
        · simp [dispatchCommand, h1, h2, OPCODE_CLEAR_EVENT_THROTTLE,
            OPCODE_FACTOR_PRM_SET, paramSet_FACTOR, parameterUpdated,
            PARAMID_FACTOR, paramGet_FACTOR, log_ACTIVITY_HI_FACTOR_UPDATED, h3]
        · simp [h1, h2, cmdResponse_out, Emit.responseOf]
      · refine ⟨{ s with
            factorValue := arg,
            factorValid := ParamValid.VALID },
          [] ++ cmdResponse_out op sq CmdResponse.OK, ?_, ?_⟩
        · simp [dispatchCommand, h1, h2, OPCODE_CLEAR_EVENT_THROTTLE,
            OPCODE_FACTOR_PRM_SET, paramSet_FACTOR, parameterUpdated,
            PARAMID_FACTOR, paramGet_FACTOR, log_ACTIVITY_HI_FACTOR_UPDATED, h3]
        · simp [h1, h2, cmdResponse_out, Emit.responseOf]
    · refine ⟨s, cmdResponse_out op sq CmdResponse.INVALID_OPCODE, ?_, ?_⟩
      · simp [dispatchCommand, h1, h2]
      · simp [h1, h2, cmdResponse_out, Emit.responseOf]

/-- Helper: starting with the throttle counter at or under the threshold, `k`
consecutive FACTOR_UPDATED attempts leave the counter at the saturating sum
`min (counter + k) threshold`. -/
lemma factorUpdatedAttempts_throttle (T : Nat) (v : F32) :
    ∀ (k : Nat) (s : MathReceiverState), s.factorUpdatedThrottle ≤ T →
      (factorUpdatedAttempts T v k s).factorUpdatedThrottle =
        min (s.factorUpdatedThrottle + k) T := by
  intro k
  induction k with
  | zero => intro s h; simp [factorUpdatedAttempts]; omega
  | succ k ih =>
      intro s h
      by_cases hc : s.factorUpdatedThrottle < T
      · have hrec :=
          ih { s with factorUpdatedThrottle := s.factorUpdatedThrottle + 1 }
            (by simpa using hc)
        simp only [factorUpdatedAttempts, log_ACTIVITY_HI_FACTOR_UPDATED,
          if_pos hc] at hrec ⊢
        rw [hrec]
        omega
      · have hrec := ih s h
        simp only [factorUpdatedAttempts, log_ACTIVITY_HI_FACTOR_UPDATED,
          if_neg hc] at hrec ⊢
        rw [hrec]
        omega

/-- C5: starting from a zero counter, after `k ≥ threshold` consecutive
emissions of the throttled FACTOR_UPDATED event the next emission is
suppressed; the CLEAR_EVENT_THROTTLE command then resets the counter to 0 and
reports the one-time THROTTLE_CLEARED event before its OK response, after
which emission resumes. -/
theorem factorUpdated_throttle_cycle (T k oc sq : Nat) (v : F32)
    (s : MathReceiverState)
    (h0 : s.factorUpdatedThrottle = 0) (hk : T ≤ k) (hT : 0 < T) :
    (log_ACTIVITY_HI_FACTOR_UPDATED T v (factorUpdatedAttempts T v k s)).2 = [] ∧
    (CLEAR_EVENT_THROTTLE_cmdHandler oc sq
        (factorUpdatedAttempts T v k s)).1.factorUpdatedThrottle = 0 ∧
    (CLEAR_EVENT_THROTTLE_cmdHandler oc sq (factorUpdatedAttempts T v k s)).2 =
      [Emit.eventThrottleCleared, Emit.cmdResponse oc sq CmdResponse.OK] ∧
    (log_ACTIVITY_HI_FACTOR_UPDATED T v
        (CLEAR_EVENT_THROTTLE_cmdHandler oc sq
          (factorUpdatedAttempts T v k s)).1).2 =
      [Emit.eventFactorUpdated v] := by
  have hcount : (factorUpdatedAttempts T v k s).factorUpdatedThrottle = T := by
    rw [factorUpdatedAttempts_throttle T v k s (by omega)]
    omega
  refine ⟨?_, ?_, ?_, ?_⟩
  · simp [log_ACTIVITY_HI_FACTOR_UPDATED, hcount]
  · simp [CLEAR_EVENT_THROTTLE_cmdHandler, log_ACTIVITY_HI_FACTOR_UPDATED_ThrottleClear]
  · simp [CLEAR_EVENT_THROTTLE_cmdHandler, log_ACTIVITY_HI_THROTTLE_CLEARED,
      cmdResponse_out]
  · simp [CLEAR_EVENT_THROTTLE_cmdHandler, log_ACTIVITY_HI_FACTOR_UPDATED,
      log_ACTIVITY_HI_FACTOR_UPDATED_ThrottleClear, hT]

/-- Witness for C5 at concrete inputs: threshold 3, three emissions, then a
clear commanded with opcode 5 and sequence number 42. -/
theorem factorUpdated_throttle_cycle_witness :
    (log_ACTIVITY_HI_FACTOR_UPDATED 3 (F32.finite 2)
        (factorUpdatedAttempts 3 (F32.finite 2) 3
          ⟨F32.finite 1, ParamValid.DEFAULT, 0, true⟩)).2 = [] ∧
    (CLEAR_EVENT_THROTTLE_cmdHandler 5 42
        (factorUpdatedAttempts 3 (F32.finite 2) 3
          ⟨F32.finite 1, ParamValid.DEFAULT, 0, true⟩)).1.factorUpdatedThrottle = 0 ∧
    (CLEAR_EVENT_THROTTLE_cmdHandler 5 42
        (factorUpdatedAttempts 3 (F32.finite 2) 3
          ⟨F32.finite 1, ParamValid.DEFAULT, 0, true⟩)).2 =
      [Emit.eventThrottleCleared, Emit.cmdResponse 5 42 CmdResponse.OK] ∧
    (log_ACTIVITY_HI_FACTOR_UPDATED 3 (F32.finite 2)
        (CLEAR_EVENT_THROTTLE_cmdHandler 5 42
          (factorUpdatedAttempts 3 (F32.finite 2) 3
            ⟨F32.finite 1, ParamValid.DEFAULT, 0, true⟩)).1).2 =
      [Emit.eventFactorUpdated (F32.finite 2)] :=
  factorUpdated_throttle_cycle 3 3 5 42 (F32.finite 2)
    ⟨F32.finite 1, ParamValid.DEFAULT, 0, true⟩ rfl (by omega) (by omega)

/-- C6: a set of a parameter followed by a get of the same identifier returns
the just-set value with validity VALID, and a get of any other identifier is
unchanged by the set. -/
theorem prm_set_get_roundtrip (db : Nat → F32 × ParamValid) (id j : Nat)
    (v : F32) (hj : j ≠ id) :
    prmGet (prmSet db id v) id = (v, ParamValid.VALID) ∧
    prmGet (prmSet db id v) j = prmGet db j := by
  constructor <;> simp [prmGet, prmSet, hj]

/-- Witness for C6 at concrete inputs: set identifier 0 to 5/2 in a store of
uninitialized zeros, then read identifiers 0 and 1. -/
theorem prm_set_get_roundtrip_witness :
    prmGet (prmSet (fun _ => (F32.finite 0, ParamValid.UNINIT)) 0
        (F32.finite (5 / 2))) 0 = (F32.finite (5 / 2), ParamValid.VALID) ∧
    prmGet (prmSet (fun _ => (F32.finite 0, ParamValid.UNINIT)) 0
        (F32.finite (5 / 2))) 1 =
      prmGet (fun _ => (F32.finite 0, ParamValid.UNINIT)) 1 :=
  prm_set_get_roundtrip (fun _ => (F32.finite 0, ParamValid.UNINIT)) 0 1
    (F32.finite (5 / 2)) (by omega)

/-- C7 counterexample: with the FACTOR_UPDATED throttle saturated (counter 3 at
threshold 3), a command-driven update of FACTOR to 2 succeeds and runs the
`parameterUpdated` callback — which re-reads and validates — yet the update's
emission trace is empty: no FACTOR_UPDATED confirmation event is emitted,
refuting the claim that every update emits it. -/
theorem paramSet_saturated_no_event :
    paramSet_FACTOR 3 (F32.finite 2)
        ⟨F32.finite 1, ParamValid.DEFAULT, 3, true⟩ =
      .ok (⟨F32.finite 2, ParamValid.VALID, 3, true⟩, ([] : List Emit)) := by
  simp [paramSet_FACTOR, parameterUpdated, PARAMID_FACTOR, paramGet_FACTOR,
    log_ACTIVITY_HI_FACTOR_UPDATED]

/-- C7 (amended): a command-driven update of the FACTOR parameter runs the
`parameterUpdated` callback synchronously within the set call; the callback
re-reads the parameter (observing the new value with validity VALID) and,
whenever the event's throttle counter is below the threshold, emits the
FACTOR_UPDATED confirmation event carrying the new value and advances the
counter. -/
theorem paramSet_notifies_below_threshold (T : Nat) (v : F32)
    (s : MathReceiverState) (h : s.factorUpdatedThrottle < T) :
    paramSet_FACTOR T v s =
      .ok ({ s with
          factorValue := v,
          factorValid := ParamValid.VALID,
          factorUpdatedThrottle := s.factorUpdatedThrottle + 1 },
        [Emit.eventFactorUpdated v]) := by
  simp [paramSet_FACTOR, parameterUpdated, PARAMID_FACTOR, paramGet_FACTOR,
    log_ACTIVITY_HI_FACTOR_UPDATED, h]

/-- Witness for the amended C7 at concrete inputs: threshold 3, counter 0,
update FACTOR to 5/2. -/
theorem paramSet_notifies_below_threshold_witness :
    paramSet_FACTOR 3 (F32.finite (5 / 2))
        ⟨F32.finite 1, ParamValid.DEFAULT, 0, true⟩ =
      .ok (⟨F32.finite (5 / 2), ParamValid.VALID, 1, true⟩,
        [Emit.eventFactorUpdated (F32.finite (5 / 2))]) :=
  paramSet_notifies_below_threshold 3 (F32.finite (5 / 2))
    ⟨F32.finite 1, ParamValid.DEFAULT, 0, true⟩ (by decide)

end MathModule
